import Mathlib

/-!
Verification of the bulk-operation calendar client (demo_backend.py,
demo_calendar_performance.py, demo_calendar_resilience.py,
demo_calendar_comprehensive.py) against its natural-language specification.

The Python sources are shallowly embedded: each client's per-request retry
loop becomes a structurally recursive Lean function over a "script" that
supplies, for each attempt index, the classified result of that network
attempt (HTTP status plus optional Retry-After header, or one of the
exception kinds the code catches).  Sleeps performed by the code are
collected into an explicit list, wall-clock response times are threaded as
rational numbers, and the mutable statistics dictionaries become explicit
record values.
-/

/-- Parse result of a Retry-After header value: the Python code calls
int() on it, which either yields an integer or raises ValueError. -/
inductive RHdr
  | parsable (n : Int)
  | unparsable
deriving DecidableEq

/-- Result of one network attempt as seen by the resilient client
(demo_calendar_resilience.py, make_resilient_request): an HTTP response
with a status code and optional Retry-After header, or one of the
exception classes caught by the code. -/
inductive REvent
  | http (status : Nat) (retryAfter : Option RHdr)
  | timeoutE
  | netErr
  | unexpectedE
deriving DecidableEq

/-- Models `int(response.headers.get(..., 1))` from all three clients:
absent header defaults to 1; a parsable header yields its value; an
unparsable header makes int() raise ValueError, modelled as `none`. -/
def retryAfterHint : Option RHdr → Option Int
  | none => some 1
  | some (.parsable n) => some n
  | some .unparsable => none

/-- The stats dictionary of ResilientCalendarClient
(demo_calendar_resilience.py lines 85-93). -/
structure RStats where
  totalAttempts : Nat
  successfulRequests : Nat
  failedRequests : Nat
  retriesPerformed : Nat
  rateLimitsHit : Nat
  networkErrors : Nat
  timeoutErrors : Nat
deriving DecidableEq

/-- The all-zero initial stats dictionary. -/
def rStats0 : RStats := ⟨0, 0, 0, 0, 0, 0, 0⟩

/-- Return value of make_resilient_request: the parsed JSON body on a 200
response, or the dictionary carrying an 'error' key built after the loop. -/
inductive RResult
  | success
  | errorDict
deriving DecidableEq

/-- The retry loop of ResilientCalendarClient.make_resilient_request
(demo_calendar_resilience.py lines 133-211), translated clause by clause.
`rem` is the number of loop iterations left (`for attempt in
range(max_retries + 1)`), `attempt` the current 0-based attempt index,
`jitter attempt` the value random.uniform(0, 1) would return on that
attempt.  The `rem = 0` case is the code after the loop (failed_requests
increment plus the error dictionary).  Python fall-through out of an elif
arm (for instance 429 or 401 at the last attempt) simply lets the for loop
move on, which the translation renders as a recursive call that does not
touch retries_performed.  The third component collects every
asyncio.sleep duration in order. -/
def resilientLoop (maxRetries : Nat) (script : Nat → REvent) (jitter : Nat → ℚ) :
    Nat → Nat → RStats → List ℚ → RResult × RStats × List ℚ
  | 0, _, stats, sleeps =>
      (.errorDict, { stats with failedRequests := stats.failedRequests + 1 }, sleeps)
  | rem + 1, attempt, stats, sleeps =>
      let stats := { stats with totalAttempts := stats.totalAttempts + 1 }
      match script attempt with
      | .http status hdr =>
          if status = 200 then
            (.success,
             { stats with successfulRequests := stats.successfulRequests + 1 }, sleeps)
          else if status = 429 then
            let stats := { stats with rateLimitsHit := stats.rateLimitsHit + 1 }
            match retryAfterHint hdr with
            | none =>
                (.errorDict,
                 { stats with failedRequests := stats.failedRequests + 1 }, sleeps)
            | some hint =>
                let sleeps := sleeps ++ [(hint : ℚ)]
                if attempt < maxRetries then
                  resilientLoop maxRetries script jitter rem (attempt + 1)
                    { stats with retriesPerformed := stats.retriesPerformed + 1 } sleeps
                else
                  resilientLoop maxRetries script jitter rem (attempt + 1) stats sleeps
          else if status = 401 then
            if attempt < maxRetries then
              resilientLoop maxRetries script jitter rem (attempt + 1)
                { stats with retriesPerformed := stats.retriesPerformed + 1 }
                (sleeps ++ [(1 : ℚ)])
            else
              resilientLoop maxRetries script jitter rem (attempt + 1) stats sleeps
          else if 500 ≤ status then
            if attempt < maxRetries then
              resilientLoop maxRetries script jitter rem (attempt + 1)
                { stats with retriesPerformed := stats.retriesPerformed + 1 }
                (sleeps ++ [(2 : ℚ) ^ attempt + jitter attempt])
            else
              resilientLoop maxRetries script jitter rem (attempt + 1) stats sleeps
          else
            (.errorDict,
             { stats with failedRequests := stats.failedRequests + 1 }, sleeps)
      | .timeoutE =>
          let stats := { stats with timeoutErrors := stats.timeoutErrors + 1 }
          if attempt < maxRetries then
            resilientLoop maxRetries script jitter rem (attempt + 1)
              { stats with retriesPerformed := stats.retriesPerformed + 1 }
              (sleeps ++ [(2 : ℚ) ^ attempt + jitter attempt])
          else
            resilientLoop maxRetries script jitter rem (attempt + 1) stats sleeps
      | .netErr =>
          let stats := { stats with networkErrors := stats.networkErrors + 1 }
          if attempt < maxRetries then
            resilientLoop maxRetries script jitter rem (attempt + 1)
              { stats with retriesPerformed := stats.retriesPerformed + 1 }
              (sleeps ++ [(2 : ℚ) ^ attempt + jitter attempt])
          else
            resilientLoop maxRetries script jitter rem (attempt + 1) stats sleeps
      | .unexpectedE =>
          (.errorDict,
           { stats with failedRequests := stats.failedRequests + 1 }, sleeps)

/-- One call to ResilientCalendarClient.make_resilient_request starting
from a zeroed stats dictionary, so the resulting RStats are this call's
increments.  The default of the max_retries parameter in the source is 3. -/
def make_resilient_request (maxRetries : Nat) (script : Nat → REvent)
    (jitter : Nat → ℚ) : RResult × RStats × List ℚ :=
  resilientLoop maxRetries script jitter (maxRetries + 1) 0 rStats0 []

/-- Default of the max_retries keyword of make_resilient_request. -/
def defaultMaxRetries : Nat := 3

/-- The all-zero jitter assignment, used to instantiate theorems on paths
that never read the jitter. -/
def jit0 : Nat → ℚ := fun _ => 0

/-!
Performance tester (demo_calendar_performance.py).  Each work item runs
CalendarPerformanceTester.create_single_event, whose 429 branch sleeps and
then calls itself recursively with no retry counter; the recursion is
embedded with an explicit fuel so that a run still stuck after `fuel`
attempts is reported as `none`.
-/

/-- Result of one attempt inside create_single_event together with the
wall-clock response time (seconds) measured around that attempt. -/
inductive PEvent
  | ok
  | rateLimited (hdr : Option RHdr)
  | badStatus (status : Nat)
  | exc
deriving DecidableEq

/-- The slice of PerformanceMetrics touched by create_single_event,
plus a count of network attempts actually performed. -/
structure PStats where
  successfulEvents : Nat
  failedEvents : Nat
  rateLimitedRequests : Nat
  attemptsMade : Nat
deriving DecidableEq

/-- The zeroed attempt counters. -/
def pStats0 : PStats := ⟨0, 0, 0, 0⟩

/-- Status field of the dictionary returned by create_single_event. -/
inductive PResult
  | success
  | failedR
  | errorR
deriving DecidableEq

/-- CalendarPerformanceTester.create_single_event
(demo_calendar_performance.py lines 73-123).  `script k` gives the result
and measured response time of the k-th attempt for this work item.
Line numbers of the faithful correspondences:
every HTTP response appends its response time to self.response_times
(line 85); 200 increments successful_events and returns (87-95); 429
increments rate_limited_requests, parses Retry-After with int() (default
1), sleeps that many seconds and recurses with no bound on the number of
retries (96-101) — an unparsable header makes int() raise, which the
enclosing `except Exception` turns into a failure after appending a second
response-time sample (112-123); any other status increments failed_events
and returns (102-110); an exception raised by the request itself appends
one sample and increments failed_events (112-123).  Returns the result
(`none` when the fuel ran out with the recursion still going), the stats,
the response_times samples appended, and the sleeps performed. -/
def create_single_event (script : Nat → PEvent × ℚ) :
    Nat → Nat → PStats → List ℚ → List ℚ →
    Option PResult × PStats × List ℚ × List ℚ
  | 0, _, stats, times, sleeps => (none, stats, times, sleeps)
  | fuel + 1, k, stats, times, sleeps =>
      let (e, t) := script k
      let stats := { stats with attemptsMade := stats.attemptsMade + 1 }
      match e with
      | .ok =>
          (some .success,
           { stats with successfulEvents := stats.successfulEvents + 1 },
           times ++ [t], sleeps)
      | .rateLimited hdr =>
          let times := times ++ [t]
          let stats := { stats with rateLimitedRequests := stats.rateLimitedRequests + 1 }
          match retryAfterHint hdr with
          | none =>
              (some .errorR,
               { stats with failedEvents := stats.failedEvents + 1 },
               times ++ [t], sleeps)
          | some hint =>
              create_single_event script fuel (k + 1) stats times (sleeps ++ [(hint : ℚ)])
      | .badStatus _ =>
          (some .failedR,
           { stats with failedEvents := stats.failedEvents + 1 },
           times ++ [t], sleeps)
      | .exc =>
          (some .errorR,
           { stats with failedEvents := stats.failedEvents + 1 },
           times ++ [t], sleeps)

/-- A work item whose attempt terminates the create_single_event recursion
within `fuel` network attempts. -/
def TerminatesWithin (script : Nat → PEvent × ℚ) (fuel : Nat) : Prop :=
  (create_single_event script fuel 0 pStats0 [] []).1 ≠ none

instance (script : Nat → PEvent × ℚ) (fuel : Nat) :
    Decidable (TerminatesWithin script fuel) := by
  unfold TerminatesWithin; infer_instance

/-- The per-item loop of run_performance_test: each event is driven through
create_single_event against the shared metrics accumulator and the shared
self.response_times list (demo_calendar_performance.py lines 177-196).
The counter increments of concurrently running items commute, so the
sequential fold is one linearisation of any interleaving. -/
def runItems : List (Nat → PEvent × ℚ) → Nat → PStats → List ℚ → PStats × List ℚ
  | [], _, stats, times => (stats, times)
  | s :: rest, fuel, stats, times =>
      let r := create_single_event s fuel 0 stats times []
      runItems rest fuel r.2.1 r.2.2.1

/-- statistics.mean from the final-metrics block (line 205). -/
def statsMean (l : List ℚ) : ℚ := l.sum / l.length

/-- Python min() over a nonempty list (line 206); 0 for the empty list,
matching the dataclass default left in place when response_times is empty. -/
def listMin : List ℚ → ℚ
  | [] => 0
  | t :: ts => ts.foldl min t

/-- Python max() over a nonempty list (line 207); 0 for the empty list. -/
def listMax : List ℚ → ℚ
  | [] => 0
  | t :: ts => ts.foldl max t

/-- The PerformanceMetrics fields produced by run_performance_test. -/
structure PerformanceMetrics where
  totalEvents : Nat
  successfulEvents : Nat
  failedEvents : Nat
  rateLimitedRequests : Nat
  responseTimes : List ℚ
  avgResponseTime : ℚ
  minResponseTime : ℚ
  maxResponseTime : ℚ
deriving DecidableEq

/-- CalendarPerformanceTester.run_performance_test
(demo_calendar_performance.py lines 153-214): resets the metrics, sets
total_events to the number of generated events, drives every item through
create_single_event, and fills avg/min/max response time from
self.response_times only when it is nonempty (lines 204-207). -/
def run_performance_test (items : List (Nat → PEvent × ℚ)) (fuel : Nat) :
    PerformanceMetrics :=
  let r := runItems items fuel pStats0 []
  { totalEvents := items.length
    successfulEvents := r.1.successfulEvents
    failedEvents := r.1.failedEvents
    rateLimitedRequests := r.1.rateLimitedRequests
    responseTimes := r.2
    avgResponseTime := if r.2 = [] then 0 else statsMean r.2
    minResponseTime := if r.2 = [] then 0 else listMin r.2
    maxResponseTime := if r.2 = [] then 0 else listMax r.2 }

/-- A work item answered 200 with response time t on every attempt. -/
def okScript (t : ℚ) : Nat → PEvent × ℚ := fun _ => (.ok, t)

/-- A work item answered a fixed non-200, non-429 status with response
time t on every attempt. -/
def badScript (status : Nat) (t : ℚ) : Nat → PEvent × ℚ :=
  fun _ => (.badStatus status, t)

/-!
Comprehensive demo client (demo_calendar_comprehensive.py,
CalendarDemoClient.make_request).
-/

/-- Result of one attempt inside CalendarDemoClient.make_request: an HTTP
response, or one of the exceptions named by its except clause
(aiohttp.ClientError, asyncio.TimeoutError). -/
inductive CEvent
  | http (status : Nat) (retryAfter : Option RHdr)
  | exc
deriving DecidableEq

/-- The stats slice touched by make_request, plus an attempt counter. -/
structure CStats where
  totalRequests : Nat
  successfulRequests : Nat
  failedRequests : Nat
  attemptsMade : Nat
deriving DecidableEq

/-- Return value of make_request. -/
inductive CResult
  | success
  | errorDict
deriving DecidableEq

/-- The `for attempt in range(3)` loop of CalendarDemoClient.make_request
(demo_calendar_comprehensive.py lines 65-86).  200 returns the parsed
body; 429 parses Retry-After with int() — an unparsable value raises
ValueError, which no except clause of this function catches, modelled as
`Except.error ()` — sleeps the hint and continues; any other status only
logs and falls through to the next attempt with no sleep; a caught
exception sleeps 2 ** attempt, but only when attempt < 2.  After the loop,
failed_requests is incremented and an error dictionary returned. -/
def compLoop (script : Nat → CEvent) :
    Nat → Nat → CStats → List ℚ → Except Unit CResult × CStats × List ℚ
  | 0, _, stats, sleeps =>
      (.ok .errorDict, { stats with failedRequests := stats.failedRequests + 1 }, sleeps)
  | rem + 1, attempt, stats, sleeps =>
      let stats := { stats with attemptsMade := stats.attemptsMade + 1 }
      match script attempt with
      | .http status hdr =>
          if status = 200 then
            (.ok .success,
             { stats with successfulRequests := stats.successfulRequests + 1 }, sleeps)
          else if status = 429 then
            match retryAfterHint hdr with
            | none => (.error (), stats, sleeps)
            | some hint =>
                compLoop script rem (attempt + 1) stats (sleeps ++ [(hint : ℚ)])
          else
            compLoop script rem (attempt + 1) stats sleeps
      | .exc =>
          if attempt < 2 then
            compLoop script rem (attempt + 1) stats (sleeps ++ [(2 : ℚ) ^ attempt])
          else
            compLoop script rem (attempt + 1) stats sleeps

/-- One call to CalendarDemoClient.make_request from zeroed stats:
total_requests is incremented once before the loop (line 63), and the
loop runs three attempts. -/
def make_request (script : Nat → CEvent) : Except Unit CResult × CStats × List ℚ :=
  compLoop script 3 0 ⟨1, 0, 0, 0⟩ []

/-- Does this make_request outcome model an exception escaping to the
caller (the ValueError raised by int() on an unparsable Retry-After)? -/
def raisesToCaller : Except Unit CResult → Bool
  | .error _ => true
  | .ok _ => false

/-!
Mock backend (demo_backend.py): the module-level demo_stats dictionary and
the endpoint handlers that mutate it.
-/

/-- The demo_stats dictionary (demo_backend.py lines 21-26). -/
structure DemoStats where
  totalRequests : Nat
  successfulRequests : Nat
  failedRequests : Nat
  eventsCreated : Nat
deriving DecidableEq

/-- demo_stats as initialised at module load (and by /reset-stats). -/
def demoStats0 : DemoStats := ⟨0, 0, 0, 0⟩

/-- One handled request against the mock backend.  `createEvent fail`
records whether the 5 percent random draw of create_calendar_event came
up as a simulated failure. -/
inductive BReq
  | health
  | auth
  | statusB
  | createEvent (fail : Bool)
  | getEvents
  | testEndpoint
  | statsEndpoint
  | resetStats
deriving DecidableEq

/-- Effect of each endpooint handler on demo_stats (demo_backend.py):
health_check and get_demo_stats do not touch it; initiate_google_auth,
get_calendar_status, get_calendar_events and test_calendar_integration
increment total and successful; create_calendar_event increments total,
then on the simulated-failure draw increments failed and raises
HTTPException(500), otherwise increments successful and events_created;
reset_demo_stats reassigns the zero dictionary. -/
def applyReq (s : DemoStats) : BReq → DemoStats
  | .health => s
  | .auth =>
      { s with totalRequests := s.totalRequests + 1,
               successfulRequests := s.successfulRequests + 1 }
  | .statusB =>
      { s with totalRequests := s.totalRequests + 1,
               successfulRequests := s.successfulRequests + 1 }
  | .createEvent fail =>
      let s := { s with totalRequests := s.totalRequests + 1 }
      if fail then
        { s with failedRequests := s.failedRequests + 1 }
      else
        { s with successfulRequests := s.successfulRequests + 1,
                 eventsCreated := s.eventsCreated + 1 }
  | .getEvents =>
      { s with totalRequests := s.totalRequests + 1,
               successfulRequests := s.successfulRequests + 1 }
  | .testEndpoint =>
      { s with totalRequests := s.totalRequests + 1,
               successfulRequests := s.successfulRequests + 1 }
  | .statsEndpoint => s
  | .resetStats => demoStats0

/-- demo_stats after the backend has served a sequence of requests. -/
def serveAll (reqs : List BReq) : DemoStats := reqs.foldl applyReq demoStats0

/-!
Batch scheduler (demo_calendar_performance.py run_performance_test lines
177-196; the same shape appears in demo_calendar_comprehensive.py
demo_bulk_event_creation lines 225-245).
-/

/-- total_batches = (len(events) + batch_size - 1) // batch_size. -/
def totalBatches (n B : Nat) : Nat := (n + B - 1) / B

/-- The slicing loop `for batch_num in range(total_batches)` with
batch_events = events[start_idx:end_idx]: iteration k processes the next
B items and the remainder list advances by B. -/
def batchLoop {α : Type} : Nat → Nat → List α → List (List α)
  | 0, _, _ => []
  | k + 1, B, l => l.take B :: batchLoop k B (l.drop B)

/-- The batches formed by run_performance_test for a given event list and
batch size. -/
def makeBatches {α : Type} (l : List α) (B : Nat) : List (List α) :=
  batchLoop (totalBatches l.length B) B l

/-- One step of the scheduler: run a batch to completion (asyncio.gather
over its tasks), or pause (asyncio.sleep between batches). -/
inductive SchedStep (α : Type)
  | runBatch (b : List α)
  | pause (seconds : ℚ)
deriving DecidableEq

/-- Is this step an inter-batch pause? -/
def SchedStep.isPause {α : Type} : SchedStep α → Bool
  | .pause _ => true
  | .runBatch _ => false

/-- The batch of a runBatch step. -/
def SchedStep.batchOf {α : Type} : SchedStep α → Option (List α)
  | .runBatch b => some b
  | .pause _ => none

/-- The body of the batch loop as an ordered schedule of actions: process
the slice, then sleep 0.1 seconds exactly when `batch_num <
total_batches - 1`, that is when further iterations remain. -/
def scheduleLoop {α : Type} : Nat → Nat → List α → List (SchedStep α)
  | 0, _, _ => []
  | k + 1, B, l =>
      .runBatch (l.take B) ::
        ((if 0 < k then [SchedStep.pause (1 / 10)] else []) ++
          scheduleLoop k B (l.drop B))

/-- The full schedule run_performance_test executes for an event list and
batch size: batches strictly in order, a 100 ms pause between consecutive
batches. -/
def schedule {α : Type} (l : List α) (B : Nat) : List (SchedStep α) :=
  scheduleLoop (totalBatches l.length B) B l

/-!
Concurrency limiter (demo_calendar_performance.py lines 42-48 and 76-77):
asyncio.Semaphore(max_concurrent) wrapped around every network attempt by
`async with self.semaphore`.  The 429 branch calls create_single_event
recursively from inside the with-block, so a retrying task re-acquires
while still holding its earlier slots; every acquired slot is released
exactly once when the corresponding with-block unwinds on return.  The
embedding is a small-step transition system over the semaphore counter and
the per-task phase. -/

/-- Phase of one work-item task: waiting to acquire the semaphore while
already holding `held` slots (held = 0 before the first attempt, positive
for a 429 retry re-entering create_single_event), in flight performing a
network attempt, or finished with all slots released. -/
inductive TaskPhase
  | waiting (held : Nat)
  | inFlight (held : Nat)
  | done
deriving DecidableEq

/-- Number of semaphore slots a task in this phase holds. -/
def heldOf : TaskPhase → Nat
  | .waiting h => h
  | .inFlight h => h
  | .done => 0

/-- Total slots held across all tasks. -/
def heldSum (ts : List TaskPhase) : Nat := (ts.map heldOf).sum

/-- Number of tasks currently performing a network attempt. -/
def inFlightCount (ts : List TaskPhase) : Nat :=
  ts.countP fun p => match p with
    | .inFlight _ => true
    | _ => false

/-- Global state: free slots of asyncio.Semaphore(max_concurrent) plus the
phase of every task. -/
structure LimiterState where
  free : Nat
  tasks : List TaskPhase
deriving DecidableEq

/-- Transitions of the semaphore-limited workload.  `acquire` is the entry
of `async with self.semaphore` (only enabled when a slot is free);
`retryStep` is the 429 branch going back to re-acquire for the recursive
call while keeping its held slots; `finish` is the task returning, each
enclosing with-block releasing its one slot. -/
inductive LimStep : LimiterState → LimiterState → Prop
  | acquire (s : LimiterState) (i f k : Nat)
      (hi : s.tasks.get? i = some (.waiting k)) (hf : s.free = f + 1) :
      LimStep s ⟨f, s.tasks.set i (.inFlight (k + 1))⟩
  | retryStep (s : LimiterState) (i k : Nat)
      (hi : s.tasks.get? i = some (.inFlight k)) :
      LimStep s ⟨s.free, s.tasks.set i (.waiting k)⟩
  | finish (s : LimiterState) (i k : Nat)
      (hi : s.tasks.get? i = some (.inFlight k)) :
      LimStep s ⟨s.free + k, s.tasks.set i .done⟩

/-- Initial state: N free slots, m tasks none of which has started. -/
def initState (N m : Nat) : LimiterState := ⟨N, List.replicate m (.waiting 0)⟩

/-- States reachable from the initial workload state. -/
def LimReachable (N m : Nat) (s : LimiterState) : Prop :=
  Relation.ReflTransGen LimStep (initState N m) s

/-- The conserved quantities: free slots plus held slots equal N, and
every in-flight task holds at least one slot. -/
def LimInv (N : Nat) (s : LimiterState) : Prop :=
  s.free + heldSum s.tasks = N ∧
    ∀ p ∈ s.tasks, (match p with | .inFlight h => 1 ≤ h | _ => True)

/-- Default of the max_concurrent constructor parameter
(demo_calendar_performance.py line 42). -/
def defaultMaxConcurrent : Nat := 50

/-!
Concrete scripts used by the theorems below.
-/

/-- Script whose every attempt yields HTTP 429 with the given header. -/
def all429 (hdr : Option RHdr) : Nat → REvent := fun _ => .http 429 hdr

/-- Script whose every attempt yields HTTP 401. -/
def all401 : Nat → REvent := fun _ => .http 401 none

/-- Resilient-client script: three server errors, then success. -/
def resil500then200 : Nat → REvent :=
  fun k => if k < 3 then .http 500 none else .http 200 none

/-- Comprehensive-client script: one server error, then success. -/
def comp500then200 : Nat → CEvent :=
  fun k => if k = 0 then .http 500 none else .http 200 none

/-- Performance-tester work item: five 429 responses with Retry-After 2,
then success; every response measured at 1 second. -/
def perf429then200 : Nat → PEvent × ℚ :=
  fun k => if k < 5 then (.rateLimited (some (.parsable 2)), 1) else (.ok, 1)

/-- The run of the latency example: three successes with response times
10, 20 and 30 (milliseconds), and two failing items measured at 70. -/
def latencyItems : List (Nat → PEvent × ℚ) :=
  [okScript 10, okScript 20, okScript 30, badScript 400 70, badScript 400 70]

/-!
Theorems.  Each claim of the specification gets one theorem (plus, for
corrected claims, a counterexample refuting the claim as stated).
-/

/-- applyReq preserves total = successful + failed. -/
theorem applyReq_preserves_inv (s : DemoStats) (r : BReq)
    (h : s.totalRequests = s.successfulRequests + s.failedRequests) :
    (applyReq s r).totalRequests =
      (applyReq s r).successfulRequests + (applyReq s r).failedRequests := by
  cases r <;> simp only [applyReq, demoStats0] <;> first
    | omega
    | (split <;> simp <;> omega)

/-- Folding any request sequence from a consistent state stays consistent. -/
theorem serveAll_inv_aux (reqs : List BReq) :
    ∀ s : DemoStats, s.totalRequests = s.successfulRequests + s.failedRequests →
      (reqs.foldl applyReq s).totalRequests =
        (reqs.foldl applyReq s).successfulRequests +
          (reqs.foldl applyReq s).failedRequests := by
  induction reqs with
  | nil => intro s h; simpa using h
  | cons r rest ih =>
      intro s h
      exact ih (applyReq s r) (applyReq_preserves_inv s r h)

/-- C10: the mock backend preserves total_requests = successful_requests +
failed_requests across every sequence of handled requests, and the
event-creation handler increments exactly one of successful/failed (and
events_created exactly on the success side) per request. -/
theorem backend_stats_invariant :
    (∀ reqs : List BReq,
        (serveAll reqs).totalRequests =
          (serveAll reqs).successfulRequests + (serveAll reqs).failedRequests) ∧
    (∀ (s : DemoStats) (fail : Bool),
        (applyReq s (.createEvent fail)).totalRequests = s.totalRequests + 1 ∧
        (applyReq s (.createEvent fail)).successfulRequests =
          s.successfulRequests + (if fail then 0 else 1) ∧
        (applyReq s (.createEvent fail)).failedRequests =
          s.failedRequests + (if fail then 1 else 0) ∧
        (applyReq s (.createEvent fail)).eventsCreated =
          s.eventsCreated + (if fail then 0 else 1)) := by
  constructor
  · intro reqs
    exact serveAll_inv_aux reqs demoStats0 rfl
  · intro s fail
    cases fail <;> simp [applyReq]

/-- The batch loop produces exactly as many batches as its fuel. -/
theorem batchLoop_length {α : Type} (k : Nat) :
    ∀ (B : Nat) (l : List α), (batchLoop k B l).length = k := by
  induction k with
  | zero => intro B l; rfl
  | succ k ih => intro B l; simp [batchLoop, ih]

/-- With enough iterations, the batch loop partitions the whole list. -/
theorem batchLoop_join {α : Type} (k : Nat) :
    ∀ (B : Nat) (l : List α), 0 < B → l.length ≤ k * B →
      (batchLoop k B l).join = l := by
  induction k with
  | zero =>
      intro B l _ h
      simp only [Nat.zero_mul, Nat.le_zero, List.length_eq_zero] at h
      simp [batchLoop, h]
  | succ k ih =>
      intro B l hB h
      have hdrop : (l.drop B).length ≤ k * B := by
        simp only [List.length_drop]
        have : l.length ≤ k * B + B := by
          calc l.length ≤ (k + 1) * B := h
            _ = k * B + B := by ring
        omega
      simp only [batchLoop, List.join_cons, ih B (l.drop B) hB hdrop]
      exact List.take_append_drop B l

/-- The event count never exceeds total_batches * batch_size. -/
theorem le_totalBatches_mul (n B : Nat) (hB : 0 < B) :
    n ≤ totalBatches n B * B := by
  unfold totalBatches
  rw [Nat.mul_comm]
  have h := Nat.div_add_mod (n + B - 1) B
  have h2 := Nat.mod_lt (n + B - 1) hB
  omega

/-- The i-th batch is the i-th length-B slice of the input. -/
theorem batchLoop_get {α : Type} (k : Nat) :
    ∀ (B : Nat) (l : List α) (i : Nat) (h : i < (batchLoop k B l).length),
      (batchLoop k B l).get ⟨i, h⟩ = (l.drop (i * B)).take B := by
  induction k with
  | zero => intro B l i h; simp [batchLoop] at h
  | succ k ih =>
      intro B l i h
      cases i with
      | zero => simp [batchLoop]
      | succ i =>
          have hlen : i < (batchLoop k B (l.drop B)).length := by
            simp [batchLoop] at h
            simpa [batchLoop_length] using h
          simp only [batchLoop, List.get_cons_succ]
          rw [ih B (l.drop B) i hlen, List.drop_drop]
          congr 2
          ring

/-- Every batch before the last one is full. -/
theorem full_batch_size (n B i : Nat) (hB : 0 < B) (h : i + 1 < totalBatches n B) :
    min B (n - i * B) = B := by
  unfold totalBatches at h
  have hd := Nat.div_add_mod (n + B - 1) B
  have hm := Nat.mod_lt (n + B - 1) hB
  have hmul : B * (i + 2) ≤ B * ((n + B - 1) / B) :=
    Nat.mul_le_mul_left B (by omega)
  rw [Nat.mul_add] at hmul
  rw [Nat.mul_comm i B] at *
  omega

/-- The number of inter-batch pauses is one less than the number of
batches (and zero for an empty schedule). -/
theorem scheduleLoop_pauses {α : Type} (k : Nat) :
    ∀ (B : Nat) (l : List α),
      (scheduleLoop k B l).countP (fun s => SchedStep.isPause s) = k - 1 := by
  induction k with
  | zero => intro B l; rfl
  | succ k ih =>
      intro B l
      simp only [scheduleLoop, List.countP_cons, List.countP_append, ih]
      cases k with
      | zero => simp [SchedStep.isPause]
      | succ k =>
          simp [SchedStep.isPause, List.countP_cons]
          omega

/-- The batches embedded in the schedule, in order, are exactly the
partition produced by the batch loop. -/
theorem scheduleLoop_batches {α : Type} (k : Nat) :
    ∀ (B : Nat) (l : List α),
      (scheduleLoop k B l).filterMap SchedStep.batchOf = batchLoop k B l := by
  induction k with
  | zero => intro B l; rfl
  | succ k ih =>
      intro B l
      simp only [scheduleLoop, batchLoop, List.filterMap_cons, List.filterMap_append, ih,
        SchedStep.batchOf]
      split <;> simp [SchedStep.batchOf]

/-- C5: for batch size B > 0 the scheduler forms exactly ceil(n/B)
batches whose concatenation is the original list, each of size B except a
possibly shorter final batch (12 items with B = 5 give sizes 5, 5, 2);
the schedule processes the batches strictly in order and contains exactly
numBatches - 1 inter-batch 100 ms pauses, placed between consecutive
batches and not after the last one (shown by the concrete pause pattern
of the 12/5 schedule). -/
theorem batch_scheduler_partition {α : Type} (l : List α) (B : Nat) (hB : 0 < B) :
    (makeBatches l B).length = l.length ⌈/⌉ B ∧
    (makeBatches l B).join = l ∧
    (∀ (i : Nat) (h : i < (makeBatches l B).length),
        ((makeBatches l B).get ⟨i, h⟩).length = min B (l.length - i * B)) ∧
    (∀ (i : Nat) (h : i < (makeBatches l B).length),
        i + 1 < (makeBatches l B).length → ((makeBatches l B).get ⟨i, h⟩).length = B) ∧
    (makeBatches (List.range 12) 5).map List.length = [5, 5, 2] ∧
    (schedule l B).filterMap SchedStep.batchOf = makeBatches l B ∧
    (schedule l B).countP (fun s => SchedStep.isPause s) = (makeBatches l B).length - 1 ∧
    (schedule (List.range 12) 5).map (fun s => SchedStep.isPause s) =
      [false, true, false, true, false] := by
  have hlen : (makeBatches l B).length = totalBatches l.length B :=
    batchLoop_length _ _ _
  refine ⟨?_, ?_, ?_, ?_, by decide, ?_, ?_, by decide⟩
  · rw [hlen]; rfl
  · exact batchLoop_join _ _ _ hB (le_totalBatches_mul l.length B hB)
  · intro i h
    show ((batchLoop (totalBatches l.length B) B l).get ⟨i, h⟩).length = _
    rw [batchLoop_get]
    simp [List.length_take, List.length_drop]
  · intro i h hfull
    show ((batchLoop (totalBatches l.length B) B l).get ⟨i, h⟩).length = B
    rw [batchLoop_get]
    simp only [List.length_take, List.length_drop]
    exact full_batch_size l.length B i hB (by rw [hlen] at hfull; exact hfull)
  · exact scheduleLoop_batches _ _ _
  · rw [hlen]; exact scheduleLoop_pauses _ _ _

/-- Witness for C5 at the concrete input of the claim: 12 items, B = 5. -/
theorem batch_scheduler_partition_witness :
    0 < 5 ∧ (makeBatches (List.range 12) 5).length = (List.range 12).length ⌈/⌉ 5 ∧
      (makeBatches (List.range 12) 5).join = List.range 12 :=
  ⟨by decide, (batch_scheduler_partition (List.range 12) 5 (by decide)).1,
   (batch_scheduler_partition (List.range 12) 5 (by decide)).2.1⟩

/-- Characterisation of the resilient retry loop on a script that answers
429 on every attempt with a header whose int() parse yields v: every
iteration sleeps v seconds, retries_performed grows only while attempt <
max_retries, and the loop ends in the failure path. -/
theorem resilientLoop_const429 (maxR : Nat) (hdr : Option RHdr) (v : Int)
    (hv : retryAfterHint hdr = some v) (jit : Nat → ℚ) :
    ∀ (rem attempt : Nat) (stats : RStats) (sleeps : List ℚ),
      resilientLoop maxR (all429 hdr) jit rem attempt stats sleeps =
        (.errorDict,
         { stats with
             totalAttempts := stats.totalAttempts + rem,
             rateLimitsHit := stats.rateLimitsHit + rem,
             retriesPerformed := stats.retriesPerformed + min rem (maxR - attempt),
             failedRequests := stats.failedRequests + 1 },
         sleeps ++ List.replicate rem (v : ℚ)) := by
  intro rem
  induction rem with
  | zero => intro attempt stats sleeps; simp [resilientLoop]
  | succ rem ih =>
      intro attempt stats sleeps
      simp only [resilientLoop, all429, hv]
      norm_num
      by_cases hlt : attempt < maxR
      · simp only [hlt, if_true, ih]
        have h1 : stats.totalAttempts + 1 + rem = stats.totalAttempts + (rem + 1) := by omega
        have h2 : stats.rateLimitsHit + 1 + rem = stats.rateLimitsHit + (rem + 1) := by omega
        have h3 : stats.retriesPerformed + 1 + rem ⊓ (maxR - (attempt + 1)) =
            stats.retriesPerformed + (rem + 1) ⊓ (maxR - attempt) := by
          rw [inf_eq_min, inf_eq_min]; omega
        have h4 : sleeps ++ [(v : ℚ)] ++ List.replicate rem (v : ℚ) =
            sleeps ++ List.replicate (rem + 1) (v : ℚ) := by
          rw [List.append_assoc]; simp [List.replicate_succ]
        rw [h1, h2, h3, h4]
      · simp only [hlt, if_false, ih]
        have h1 : stats.totalAttempts + 1 + rem = stats.totalAttempts + (rem + 1) := by omega
        have h2 : stats.rateLimitsHit + 1 + rem = stats.rateLimitsHit + (rem + 1) := by omega
        have h3 : stats.retriesPerformed + rem ⊓ (maxR - (attempt + 1)) =
            stats.retriesPerformed + (rem + 1) ⊓ (maxR - attempt) := by
          rw [inf_eq_min, inf_eq_min]; omega
        have h4 : sleeps ++ [(v : ℚ)] ++ List.replicate rem (v : ℚ) =
            sleeps ++ List.replicate (rem + 1) (v : ℚ) := by
          rw [List.append_assoc]; simp [List.replicate_succ]
        rw [h1, h2, h3, h4]

/-- C2 (amended): in the resilient client, a work item answered 429 with
a parsable Retry-After of R on every attempt is retried exactly
max_retries times; every one of its max_retries + 1 attempts sleeps
exactly R seconds (so each wait before a retry is at least R), and the
item is then recorded as one failed request, the attempt count being
exactly max_retries + 1.  The performance tester does not obey this
bound: its 429 branch recurses with no retry ceiling (see the
counterexample theorem). -/
theorem rate_limited_retry_bound_resilient (maxR : Nat) (R : Int) (jit : Nat → ℚ) :
    make_resilient_request maxR (all429 (some (.parsable R))) jit =
      (.errorDict, ⟨maxR + 1, 0, 1, maxR, maxR + 1, 0, 0⟩,
       List.replicate (maxR + 1) (R : ℚ)) ∧
    ∀ s ∈ List.replicate (maxR + 1) (R : ℚ), (R : ℚ) ≤ s := by
  constructor
  · have h := resilientLoop_const429 maxR (some (.parsable R)) R rfl jit
      (maxR + 1) 0 rStats0 []
    rw [make_resilient_request, h]
    have hmin : min (maxR + 1) (maxR - 0) = maxR := by omega
    simp only [rStats0, hmin, Nat.zero_add, List.nil_append]
  · intro s hs
    rw [List.eq_of_mem_replicate hs]

/-- C2 counterexample: a performance-tester work item that receives 429
with Retry-After 2 on its first five attempts makes six network attempts
and ends as a success, never being recorded as failed — the number of
attempts exceeds max_retries + 1 = 4 because create_single_event's 429
branch retries without any ceiling. -/
theorem rate_limited_unbounded_perf_cex :
    (create_single_event perf429then200 20 0 pStats0 [] []).1 = some PResult.success ∧
    (create_single_event perf429then200 20 0 pStats0 [] []).2.1.attemptsMade = 6 ∧
    (create_single_event perf429then200 20 0 pStats0 [] []).2.1.failedEvents = 0 ∧
    ¬ (6 ≤ defaultMaxRetries + 1) := by decide

/-- C3 counterexample: a request answered 401 on every attempt is NOT
failed after one attempt: the resilient client's 401 branch retries it,
so with max_retries = 3 it performs 4 attempts and 3 retries (each
preceded by a 1 second sleep) before recording the failure. -/
theorem unauthorized_is_retried_cex :
    make_resilient_request defaultMaxRetries all401 jit0 =
      (.errorDict, ⟨4, 0, 1, 3, 0, 0, 0⟩, [1, 1, 1]) ∧
    (4 : Nat) ≠ 1 := by decide

/-- C3 (amended): a request whose first attempt returns a 4xx status
other than 429 and other than 401 is recorded as failed after exactly one
attempt with no retry and no sleep; the 401 status is excluded because
the resilient client retries it like a transient error. -/
theorem client_error_no_retry (maxR : Nat) (script : Nat → REvent) (jit : Nat → ℚ)
    (c : Nat) (hdr : Option RHdr) (h0 : script 0 = .http c hdr)
    (h4 : 400 ≤ c) (h5 : c < 500) (h429 : c ≠ 429) (h401 : c ≠ 401) :
    make_resilient_request maxR script jit =
      (.errorDict, ⟨1, 0, 1, 0, 0, 0, 0⟩, []) := by
  have h200 : ¬ c = 200 := by omega
  have h500 : ¬ 500 ≤ c := by omega
  rw [make_resilient_request]
  simp [resilientLoop, h0, h200, h429, h401, h500, rStats0]

/-- Witness for C3 at status 403. -/
theorem client_error_no_retry_witness :
    (400 ≤ 403 ∧ 403 < 500 ∧ 403 ≠ 429 ∧ 403 ≠ 401) ∧
    make_resilient_request 3 (fun _ => REvent.http 403 none) jit0 =
      (.errorDict, ⟨1, 0, 1, 0, 0, 0, 0⟩, []) :=
  ⟨by decide,
   client_error_no_retry 3 (fun _ => REvent.http 403 none) jit0 403 none rfl
     (by decide) (by decide) (by decide) (by decide)⟩

/-- C7 counterexample: in the resilient client a 429 response whose
Retry-After header is unparsable is NOT defaulted to a 1 second hint and
NOT handled as a retryable rate limit — int() raises ValueError, the
generic exception handler breaks out of the loop, and the call is
recorded as failed after a single attempt with no sleep at all, even
though max_retries = 3 retries were still available. -/
theorem retry_after_unparsable_cex :
    make_resilient_request defaultMaxRetries (all429 (some .unparsable)) jit0 =
      (.errorDict, ⟨1, 0, 1, 0, 1, 0, 0⟩, []) ∧
    (make_resilient_request defaultMaxRetries (all429 (some .unparsable))
        jit0).2.1.failedRequests ≠ 0 := by decide

/-- C7 (amended): the 1 second default applies only when the Retry-After
header is absent — an all-429 run with no header sleeps exactly 1 second
before each attempt and is handled as rate-limited throughout.  An
unparsable header instead raises ValueError inside the 429 branch: the
resilient client records the call as one failure after a single attempt,
the comprehensive client propagates the exception to its caller, and the
performance tester records the item as failed after appending a second
latency sample. -/
theorem retry_after_default_and_unparsable (maxR : Nat) (jit : Nat → ℚ) :
    (make_resilient_request maxR (all429 none) jit =
      (.errorDict, ⟨maxR + 1, 0, 1, maxR, maxR + 1, 0, 0⟩,
       List.replicate (maxR + 1) (1 : ℚ))) ∧
    (make_resilient_request defaultMaxRetries (all429 (some .unparsable)) jit0 =
      (.errorDict, ⟨1, 0, 1, 0, 1, 0, 0⟩, [])) ∧
    (raisesToCaller (make_request (fun _ => CEvent.http 429 (some .unparsable))).1 =
      true) ∧
    (create_single_event (fun _ => (PEvent.rateLimited (some .unparsable), 1)) 2 0
        pStats0 [] [] =
      (some PResult.errorR, ⟨0, 1, 1, 1⟩, [1, 1], [])) := by
  refine ⟨?_, by decide, by decide, by decide⟩
  have h := resilientLoop_const429 maxR none 1 rfl jit (maxR + 1) 0 rStats0 []
  rw [make_resilient_request, h]
  have hmin : min (maxR + 1) (maxR - 0) = maxR := by omega
  simp only [rStats0, hmin, Nat.zero_add, List.nil_append]
  norm_num

/-- Every run of the resilient retry loop ends in exactly one of its two
return paths: the 200 return, which increments successful_requests once
and leaves failed_requests untouched, or a return of the error
dictionary, which increments failed_requests exactly once. -/
theorem resilientLoop_terminal_counts (maxR : Nat) (script : Nat → REvent)
    (jit : Nat → ℚ) :
    ∀ (rem attempt : Nat) (stats : RStats) (sleeps : List ℚ),
      ((resilientLoop maxR script jit rem attempt stats sleeps).2.1.failedRequests =
          stats.failedRequests +
            (if (resilientLoop maxR script jit rem attempt stats sleeps).1 =
                RResult.success then 0 else 1)) ∧
      ((resilientLoop maxR script jit rem attempt stats sleeps).2.1.successfulRequests =
          stats.successfulRequests +
            (if (resilientLoop maxR script jit rem attempt stats sleeps).1 =
                RResult.success then 1 else 0)) := by
  intro rem
  induction rem with
  | zero =>
      intro attempt stats sleeps
      simp [resilientLoop]
  | succ rem ih =>
      intro attempt stats sleeps
      cases hev : script attempt with
      | http status hdr =>
          by_cases h200 : status = 200
          · simp [resilientLoop, hev, h200]
          · by_cases h429 : status = 429
            · cases hhint : retryAfterHint hdr with
              | none => simp [resilientLoop, hev, h200, h429, hhint]
              | some hint =>
                  by_cases hlt : attempt < maxR <;>
                    simp [resilientLoop, hev, h200, h429, hhint, hlt, ih]
            · by_cases h401 : status = 401
              · by_cases hlt : attempt < maxR <;>
                  simp [resilientLoop, hev, h200, h429, h401, hlt, ih]
              · by_cases h500 : 500 ≤ status
                · by_cases hlt : attempt < maxR <;>
                    simp [resilientLoop, hev, h200, h429, h401, h500, hlt, ih]
                · simp [resilientLoop, hev, h200, h429, h401, h500]
      | timeoutE =>
          by_cases hlt : attempt < maxR <;> simp [resilientLoop, hev, hlt, ih]
      | netErr =>
          by_cases hlt : attempt < maxR <;> simp [resilientLoop, hev, hlt, ih]
      | unexpectedE => simp [resilientLoop, hev]

/-- C9: make_resilient_request is a total function of the attempt script —
every sequence of response statuses and caught exceptions yields a
returned dictionary, the parsed body on success or the error dictionary
otherwise — and one call increments failed_requests exactly once when it
fails and not at all when it succeeds (and successful_requests exactly
once when it succeeds). -/
theorem resilient_request_returns_and_counts_once (maxR : Nat)
    (script : Nat → REvent) (jit : Nat → ℚ) :
    ((make_resilient_request maxR script jit).2.1.failedRequests =
      if (make_resilient_request maxR script jit).1 = RResult.success
      then 0 else 1) ∧
    ((make_resilient_request maxR script jit).2.1.successfulRequests =
      if (make_resilient_request maxR script jit).1 = RResult.success
      then 1 else 0) := by
  have h := resilientLoop_terminal_counts maxR script jit (maxR + 1) 0 rStats0 []
  rw [make_resilient_request]
  simpa [rStats0] using h

/-- C6 counterexample: in the comprehensive demo client a 500 response is
retried with NO wait at all — the non-200, non-429 branch only logs and
falls through to the next loop iteration — so the wait before a
ServerError retry at attempt 0 is not in the claimed interval [1, 2): the
recorded sleep list of a run with a 500 then a 200 is empty although a
second attempt was made. -/
theorem server_error_retry_no_wait_cex :
    make_request comp500then200 = (.ok .success, ⟨1, 1, 0, 2⟩, ([] : List ℚ)) ∧
    ¬ (1 ≤ ([] : List ℚ).length) := by
  exact ⟨rfl, by decide⟩

/-- C6 (amended): in the resilient client, every retry of a ServerError
(status >= 500), NetworkError or Timeout outcome at 0-based attempt k —
for every script, every max_retries, every attempt index k < max_retries
and every loop state — proceeds to the next attempt with exactly
2 ^ k + jitter(k) seconds appended to the sleep list, a wait that lies in
[2 ^ k, 2 ^ k + 1) whenever jitter(k) ∈ [0, 1).  The comprehensive demo
client does not implement this policy (see also the counterexample): its
exception path sleeps a jitterless 2 ^ k, and only when k < 2 (no sleep at
the final attempt), while every non-200, non-429 HTTP status — 5xx
included — falls through to the next attempt with no wait at all. -/
theorem transient_retry_backoff (maxR : Nat) (script : Nat → REvent)
    (jit : Nat → ℚ) (rem attempt : Nat) (stats : RStats) (sleeps : List ℚ)
    (hlt : attempt < maxR) (hj0 : 0 ≤ jit attempt) (hj1 : jit attempt < 1) :
    (∀ (status : Nat) (hdr : Option RHdr),
        script attempt = REvent.http status hdr → 500 ≤ status →
        resilientLoop maxR script jit (rem + 1) attempt stats sleeps =
          resilientLoop maxR script jit rem (attempt + 1)
            { stats with totalAttempts := stats.totalAttempts + 1,
                         retriesPerformed := stats.retriesPerformed + 1 }
            (sleeps ++ [(2 : ℚ) ^ attempt + jit attempt])) ∧
    (script attempt = REvent.timeoutE →
        resilientLoop maxR script jit (rem + 1) attempt stats sleeps =
          resilientLoop maxR script jit rem (attempt + 1)
            { stats with totalAttempts := stats.totalAttempts + 1,
                         timeoutErrors := stats.timeoutErrors + 1,
                         retriesPerformed := stats.retriesPerformed + 1 }
            (sleeps ++ [(2 : ℚ) ^ attempt + jit attempt])) ∧
    (script attempt = REvent.netErr →
        resilientLoop maxR script jit (rem + 1) attempt stats sleeps =
          resilientLoop maxR script jit rem (attempt + 1)
            { stats with totalAttempts := stats.totalAttempts + 1,
                         networkErrors := stats.networkErrors + 1,
                         retriesPerformed := stats.retriesPerformed + 1 }
            (sleeps ++ [(2 : ℚ) ^ attempt + jit attempt])) ∧
    ((2 : ℚ) ^ attempt ≤ (2 : ℚ) ^ attempt + jit attempt ∧
      (2 : ℚ) ^ attempt + jit attempt < (2 : ℚ) ^ attempt + 1) ∧
    (∀ (cscript : Nat → CEvent) (cstats : CStats) (csleeps : List ℚ),
        cscript attempt = CEvent.exc → attempt < 2 →
        compLoop cscript (rem + 1) attempt cstats csleeps =
          compLoop cscript rem (attempt + 1)
            { cstats with attemptsMade := cstats.attemptsMade + 1 }
            (csleeps ++ [(2 : ℚ) ^ attempt])) ∧
    (∀ (cscript : Nat → CEvent) (cstats : CStats) (csleeps : List ℚ),
        cscript attempt = CEvent.exc → ¬ attempt < 2 →
        compLoop cscript (rem + 1) attempt cstats csleeps =
          compLoop cscript rem (attempt + 1)
            { cstats with attemptsMade := cstats.attemptsMade + 1 } csleeps) ∧
    (∀ (cscript : Nat → CEvent) (cstats : CStats) (csleeps : List ℚ)
        (status : Nat) (hdr : Option RHdr),
        cscript attempt = CEvent.http status hdr → status ≠ 200 → status ≠ 429 →
        compLoop cscript (rem + 1) attempt cstats csleeps =
          compLoop cscript rem (attempt + 1)
            { cstats with attemptsMade := cstats.attemptsMade + 1 } csleeps) := by
  refine ⟨?_, ?_, ?_, ⟨by linarith, by linarith⟩, ?_, ?_, ?_⟩
  · intro status hdr hev h500
    have h200 : ¬ status = 200 := by omega
    have h429 : ¬ status = 429 := by omega
    have h401 : ¬ status = 401 := by omega
    simp [resilientLoop, hev, h200, h429, h401, h500, hlt]
  · intro hev
    simp [resilientLoop, hev, hlt]
  · intro hev
    simp [resilientLoop, hev, hlt]
  · intro cscript cstats csleeps hev h2
    simp [compLoop, hev, h2]
  · intro cscript cstats csleeps hev h2
    simp [compLoop, hev, h2]
  · intro cscript cstats csleeps status hdr hev h200 h429
    simp [compLoop, hev, h200, h429]

/-- Witness for C6: the first step of the resilient run with max_retries
= 3 on the three-server-errors-then-success script, at zero jitter, is
exactly a retry that appends the backoff wait 2 ^ 0 + jitter(0). -/
theorem transient_retry_backoff_witness :
    (0 < 3 ∧ (0 : ℚ) ≤ jit0 0 ∧ jit0 0 < 1 ∧
      resil500then200 0 = REvent.http 500 none ∧ 500 ≤ 500) ∧
    resilientLoop 3 resil500then200 jit0 4 0 rStats0 [] =
      resilientLoop 3 resil500then200 jit0 3 1
        { rStats0 with totalAttempts := rStats0.totalAttempts + 1,
                       retriesPerformed := rStats0.retriesPerformed + 1 }
        ([] ++ [(2 : ℚ) ^ 0 + jit0 0]) :=
  ⟨⟨by decide, by norm_num [jit0], by norm_num [jit0], rfl, by norm_num⟩,
   (transient_retry_backoff 3 resil500then200 jit0 3 0 rStats0 [] (by decide)
      (by norm_num [jit0]) (by norm_num [jit0])).1 500 none rfl (by norm_num)⟩

/-- C1 counterexample: in the run with successes of latency 10, 20, 30
and two failures of latency 70, the produced metrics do NOT satisfy
mean = 20 and max = 30, although successful = 3 and failed = 2 — the
performance tester appends every attempt's response time to
self.response_times before checking the status, so failed attempts enter
the mean/min/max computation. -/
theorem latency_includes_failures_cex :
    (run_performance_test latencyItems 2).successfulEvents = 3 ∧
    (run_performance_test latencyItems 2).failedEvents = 2 ∧
    (run_performance_test latencyItems 2).avgResponseTime ≠ 20 ∧
    (run_performance_test latencyItems 2).maxResponseTime ≠ 30 := by
  norm_num [run_performance_test, runItems, create_single_event, latencyItems,
    okScript, badScript, pStats0, statsMean, listMin, listMax, retryAfterHint]
  decide

/-- C1 (amended): latency statistics are computed over the response times
of ALL attempts, failures included: the run with 3 successes (10, 20, 30)
and 2 failures measured at 70 yields successful = 3 and failed = 2 as the
claim expects, but its latency samples are [10, 20, 30, 70, 70], giving
mean = 40, min = 10, max = 70. -/
theorem latency_over_all_attempts :
    run_performance_test latencyItems 2 =
      ⟨5, 3, 2, 0, [10, 20, 30, 70, 70], 40, 10, 70⟩ := by
  norm_num [run_performance_test, runItems, create_single_event, latencyItems,
    okScript, badScript, pStats0, statsMean, listMin, listMax, retryAfterHint]
  decide

/-- The result component of create_single_event depends only on the
script, the fuel and the attempt index, not on the accumulators threaded
through the call. -/
theorem create_single_event_result_indep (script : Nat → PEvent × ℚ) :
    ∀ (fuel k : Nat) (s1 s2 : PStats) (t1 t2 sl1 sl2 : List ℚ),
      (create_single_event script fuel k s1 t1 sl1).1 =
        (create_single_event script fuel k s2 t2 sl2).1 := by
  intro fuel
  induction fuel with
  | zero => intro k s1 s2 t1 t2 sl1 sl2; rfl
  | succ fuel ih =>
      intro k s1 s2 t1 t2 sl1 sl2
      rcases hev : script k with ⟨e, t⟩
      cases e with
      | ok => simp [create_single_event, hev]
      | rateLimited hdr =>
          cases hhint : retryAfterHint hdr with
          | none => simp [create_single_event, hev, hhint]
          | some hint =>
              simp only [create_single_event, hev, hhint]
              exact ih (k + 1) _ _ _ _ _ _
      | badStatus c => simp [create_single_event, hev]
      | exc => simp [create_single_event, hev]

/-- Each terminating create_single_event call increments exactly one of
successful_events and failed_events, by exactly one. -/
theorem create_single_event_one_terminal (script : Nat → PEvent × ℚ) :
    ∀ (fuel k : Nat) (stats : PStats) (times sleeps : List ℚ),
      (create_single_event script fuel k stats times sleeps).1 ≠ none →
      (create_single_event script fuel k stats times sleeps).2.1.successfulEvents +
          (create_single_event script fuel k stats times sleeps).2.1.failedEvents =
        stats.successfulEvents + stats.failedEvents + 1 := by
  intro fuel
  induction fuel with
  | zero => intro k stats times sleeps h; simp [create_single_event] at h
  | succ fuel ih =>
      intro k stats times sleeps h
      rcases hev : script k with ⟨e, t⟩
      cases e with
      | ok => simp [create_single_event, hev]; omega
      | rateLimited hdr =>
          cases hhint : retryAfterHint hdr with
          | none => simp [create_single_event, hev, hhint]; omega
          | some hint =>
              simp only [create_single_event, hev, hhint] at h ⊢
              rw [ih (k + 1) _ _ _ h]
      | badStatus c => simp [create_single_event, hev]; omega
      | exc => simp [create_single_event, hev]; omega

/-- Folding terminating items through the run accumulates exactly one
terminal count per item. -/
theorem runItems_counts (fuel : Nat) :
    ∀ (items : List (Nat → PEvent × ℚ)) (stats : PStats) (times : List ℚ),
      (∀ s ∈ items, TerminatesWithin s fuel) →
      (runItems items fuel stats times).1.successfulEvents +
          (runItems items fuel stats times).1.failedEvents =
        stats.successfulEvents + stats.failedEvents + items.length := by
  intro items
  induction items with
  | nil => intro stats times _; simp [runItems]
  | cons s rest ih =>
      intro stats times hterm
      have hs : TerminatesWithin s fuel := hterm s (by simp)
      have hne : (create_single_event s fuel 0 stats times []).1 ≠ none := by
        rw [create_single_event_result_indep s fuel 0 stats pStats0 times [] [] []]
        exact hs
      have hcount := create_single_event_one_terminal s fuel 0 stats times [] hne
      simp only [runItems]
      rw [ih _ _ (fun x hx => hterm x (by simp [hx])), hcount]
      simp [List.length_cons]
      omega

/-- C4: for every set of submitted work items whose retry recursions
terminate, the final metrics satisfy total = successful + failed — every
item contributes exactly one terminal count, none is dropped and none is
counted twice. -/
theorem metrics_total_eq_success_plus_failed (items : List (Nat → PEvent × ℚ))
    (fuel : Nat) (hterm : ∀ s ∈ items, TerminatesWithin s fuel) :
    (run_performance_test items fuel).totalEvents =
      (run_performance_test items fuel).successfulEvents +
        (run_performance_test items fuel).failedEvents := by
  have h := runItems_counts fuel items pStats0 [] hterm
  simp only [run_performance_test]
  rw [h]
  simp [pStats0]

/-- Witness for C4 on a concrete two-item run. -/
theorem metrics_total_eq_success_plus_failed_witness :
    (∀ s ∈ [okScript 1, badScript 400 2], TerminatesWithin s 1) ∧
    (run_performance_test [okScript 1, badScript 400 2] 1).totalEvents =
      (run_performance_test [okScript 1, badScript 400 2] 1).successfulEvents +
        (run_performance_test [okScript 1, badScript 400 2] 1).failedEvents :=
  ⟨by decide, metrics_total_eq_success_plus_failed [okScript 1, badScript 400 2] 1
    (by decide)⟩

/-- Updating one task's phase changes the held-slot total by the
difference between the new and old phase. -/
theorem heldSum_set :
    ∀ (ts : List TaskPhase) (i : Nat) (p q : TaskPhase),
      ts.get? i = some p →
      heldSum (ts.set i q) + heldOf p = heldSum ts + heldOf q := by
  intro ts
  induction ts with
  | nil => intro i p q h; simp at h
  | cons a as ih =>
      intro i p q h
      cases i with
      | zero =>
          simp only [List.get?] at h
          cases h
          simp [heldSum, List.set]
          omega
      | succ i =>
          simp only [List.get?] at h
          have := ih i p q h
          simp only [List.set, heldSum, List.map_cons, List.sum_cons] at this ⊢
          omega

/-- An element of a list after a set is the new value or an old element. -/
theorem mem_set_cases :
    ∀ (ts : List TaskPhase) (i : Nat) (q x : TaskPhase),
      x ∈ ts.set i q → x = q ∨ x ∈ ts := by
  intro ts
  induction ts with
  | nil => intro i q x h; simp [List.set] at h
  | cons a as ih =>
      intro i q x h
      cases i with
      | zero =>
          simp only [List.set, List.mem_cons] at h
          rcases h with h | h
          · exact Or.inl h
          · exact Or.inr (List.mem_cons_of_mem a h)
      | succ i =>
          simp only [List.set, List.mem_cons] at h
          rcases h with h | h
          · exact Or.inr (by simp [h])
          · rcases ih i q x h with h2 | h2
            · exact Or.inl h2
            · exact Or.inr (List.mem_cons_of_mem a h2)

/-- When every in-flight task holds at least one slot, the number of
in-flight tasks is bounded by the held-slot total. -/
theorem inFlightCount_le_heldSum :
    ∀ ts : List TaskPhase,
      (∀ p ∈ ts, (match p with | TaskPhase.inFlight h => 1 ≤ h | _ => True)) →
      inFlightCount ts ≤ heldSum ts := by
  intro ts
  induction ts with
  | nil => intro _; simp [inFlightCount, heldSum]
  | cons a as ih =>
      intro h
      have ha := h a (by simp)
      have has := ih fun p hp => h p (List.mem_cons_of_mem a hp)
      cases a <;>
        simp only [inFlightCount, heldSum, List.countP_cons, List.map_cons,
          List.sum_cons, heldOf] at ha has ⊢ <;>
        simp at * <;> omega

/-- Every limiter transition preserves the conservation invariant. -/
theorem limStep_preserves (N : Nat) (s s2 : LimiterState)
    (hstep : LimStep s s2) (hinv : LimInv N s) : LimInv N s2 := by
  obtain ⟨hsum, hflight⟩ := hinv
  cases hstep with
  | acquire i f k hi hf =>
      constructor
      · have h := heldSum_set s.tasks i (TaskPhase.waiting k) (TaskPhase.inFlight (k + 1)) hi
        simp only [heldOf] at h
        simp only []
        omega
      · intro p hp
        rcases mem_set_cases s.tasks i (TaskPhase.inFlight (k + 1)) p hp with h | h
        · subst h; simp
        · exact hflight p h
  | retryStep i k hi =>
      constructor
      · have h := heldSum_set s.tasks i (TaskPhase.inFlight k) (TaskPhase.waiting k) hi
        simp only [heldOf] at h
        simp only []
        omega
      · intro p hp
        rcases mem_set_cases s.tasks i (TaskPhase.waiting k) p hp with h | h
        · subst h; simp
        · exact hflight p h
  | finish i k hi =>
      constructor
      · have h := heldSum_set s.tasks i (TaskPhase.inFlight k) TaskPhase.done hi
        simp only [heldOf] at h
        simp only []
        omega
      · intro p hp
        rcases mem_set_cases s.tasks i TaskPhase.done p hp with h | h
        · subst h; simp
        · exact hflight p h

/-- The initial workload state satisfies the invariant. -/
theorem limInv_init (N m : Nat) : LimInv N (initState N m) := by
  constructor
  · simp [initState, heldSum, heldOf, List.map_replicate, List.sum_replicate]
  · intro p hp
    simp only [initState] at hp
    rw [List.eq_of_mem_replicate hp]
    simp

/-- Every reachable state satisfies the invariant. -/
theorem limReachable_inv (N m : Nat) (s : LimiterState)
    (h : LimReachable N m s) : LimInv N s := by
  induction h with
  | refl => exact limInv_init N m
  | tail _ hstep ih => exact limStep_preserves N _ _ hstep ih

/-- C8: under the semaphore discipline of the performance tester — every
network attempt performed only inside `async with self.semaphore`, a 429
retry re-acquiring before its recursive attempt, and each admission
released exactly once as its with-block unwinds — at most N attempts are
in flight simultaneously in every reachable state, and the free plus held
slot count is conserved at N (no slot is leaked or double-released). -/
theorem limiter_bounds_in_flight (N m : Nat) (s : LimiterState)
    (h : LimReachable N m s) :
    inFlightCount s.tasks ≤ N ∧ s.free + heldSum s.tasks = N := by
  obtain ⟨hsum, hflight⟩ := limReachable_inv N m s h
  have hle := inFlightCount_le_heldSum s.tasks hflight
  exact ⟨by omega, hsum⟩

/-- Witness for C8: the initial state of a 3-task workload under limit 2
is reachable and respects the bound. -/
theorem limiter_bounds_in_flight_witness :
    LimReachable 2 3 (initState 2 3) ∧
    inFlightCount (initState 2 3).tasks ≤ 2 :=
  ⟨Relation.ReflTransGen.refl,
   (limiter_bounds_in_flight 2 3 (initState 2 3) Relation.ReflTransGen.refl).1⟩
